import Mathlib

/-!
# Discord music bot: command handlers of `AudioBot`

Shallow embedding of `src/javascript_files/discord_bot.js`.

* The fields of `AudioBot` that the handlers read or write are the state.
* Every call that leaves the class (the interaction's reply API, the player,
  the guild queue, the voice connection, the command registry) is recorded, in
  order, as an `Effect` (or a `RegistryCall`).
* What the outside world answers during one handler run is the `Env` argument:
  the queue `useQueue` returns, whether `player.play` resolves or rejects, and
  whether a queue or connection call throws.  Of the player library only this
  is used: `queue.tracks` is its `Queue` class, which reports its number of
  entries as `size` and has no `length` property.
* `console.log` / `console.error` output is not part of the model.
* The interaction's reply API (`deferReply`, `followUp`, `reply`) is taken to
  succeed; `deferReply` marks the interaction as deferred, as discord.js does.
-/

namespace AudioBotModel

/-! ## Data -/

/-- The track object returned by `player.play`; only `cleanTitle` is read. -/
structure Track where
  cleanTitle : String
deriving DecidableEq, Repr

/-- A voice channel object; only `id` is read by the bot. -/
structure VoiceChannel where
  id : String
deriving DecidableEq, Repr

/-- A voice connection handle; `channelId` is `joinConfig.channelId`. -/
structure VoiceConnection where
  channelId : String
deriving DecidableEq, Repr

/-- The mutable fields of an `AudioBot` instance used by the handlers.
`isRecording` is read by `playCommand` but assigned nowhere (it is `undefined`,
hence falsy, in every run of the program).  `endListeners` counts the
callbacks registered with `this.player.on(end, ...)`. -/
structure AudioBot where
  isPlaying : Bool
  currentConnection : Option VoiceConnection
  voiceChannel : Option VoiceChannel
  isRecording : Bool
  endListeners : Nat
deriving DecidableEq, Repr

/-- The state the constructor leaves behind (lines 42-60). -/
def AudioBot.init : AudioBot :=
  { isPlaying := false
    currentConnection := none
    voiceChannel := none
    isRecording := false
    endListeners := 0 }

/-- The parts of a discord.js interaction the bot reads.
`memberVoiceChannel` is `interaction.member.voice.channel`, `songUrl` the value
of the `song_url` option, `devError` is `interaction.client?.dev?.error`. -/
structure Interaction where
  isCommand : Bool
  commandName : String
  guildId : String
  memberVoiceChannel : Option VoiceChannel
  songUrl : Option String
  deferred : Bool
  replied : Bool
  devError : Option String
deriving DecidableEq, Repr

/-- The object `queue.tracks`: an instance of the player library's `Queue`
class (the one whose `clear()` line 195 calls).  `size` is the number of
further tracks queued behind the current one. -/
structure TrackQueue where
  size : Nat
deriving DecidableEq, Repr

/-- The property read `queue.tracks.length` of line 150.  The `Queue` class
defines `size` and no `length`, so the read yields `undefined` (here `none`)
whatever the queue holds. -/
def TrackQueue.length (_tracks : TrackQueue) : Option Nat := none

/-- The operator `!` of JavaScript on a value that is `undefined` or a number:
true for `undefined` and for zero. -/
def jsNot : Option Nat → Bool
  | none => true
  | some n => n == 0

/-- What a handler reads from the object `useQueue(guildId)` returns:
`queue.currentTrack` and `queue.tracks`. -/
structure QueueView where
  currentTrack : Option Track
  tracks : TrackQueue
deriving DecidableEq, Repr

/-- Answers of the collaborators during one handler run.  A `some m` in a
`...Throws` field means the call throws an error with message `m`. -/
structure Env where
  useQueue : String → Option QueueView
  play : VoiceChannel → String → Except String Track
  clearThrows : Option String
  stopThrows : Option String
  skipThrows : Option String
  destroyThrows : Option String

/-- Calls that leave the class, in the order they are issued. -/
inductive Effect where
  | deferReply
  | followUp (content : String)
  | reply (content : String) (ephemeral : Bool)
  | destroy (conn : VoiceConnection)
  | playerPlay (channel : VoiceChannel) (query : String)
  | onEnd
  | tracksClear (guildId : String)
  | nodeStop (guildId : String)
  | nodeSkip (guildId : String)
deriving DecidableEq, Repr

/-- Calls on the player or on a guild queue. -/
def Effect.isProviderCall : Effect → Bool
  | .playerPlay _ _ => true
  | .onEnd => true
  | .tracksClear _ => true
  | .nodeStop _ => true
  | .nodeSkip _ => true
  | _ => false

/-- Calls to `currentConnection.destroy()`. -/
def Effect.isDestroy : Effect → Bool
  | .destroy _ => true
  | _ => false

/-- Outcome of running a handler (or a block of one): the bot afterwards, the
calls issued, and the message of the exception that escaped, if any. -/
structure Result where
  bot : AudioBot
  effects : List Effect
  threw : Option String
deriving DecidableEq, Repr

/-- Sequencing of two blocks: the second runs only if the first did not throw. -/
def Result.andThen (r : Result) (k : AudioBot → Result) : Result :=
  match r.threw with
  | some m => ⟨r.bot, r.effects, some m⟩
  | none =>
    let r2 := k r.bot
    ⟨r2.bot, r.effects ++ r2.effects, r2.threw⟩

/-- The two statements `this.currentConnection.destroy();
this.currentConnection = null;`. -/
def destroyConnection (bot : AudioBot) (c : VoiceConnection) (env : Env) : Result :=
  match env.destroyThrows with
  | some m => ⟨bot, [.destroy c], some m⟩
  | none => ⟨{ bot with currentConnection := none }, [.destroy c], none⟩

/-! ## playCommand (lines 63-137) -/

/-- The body of the `try` block of `playCommand` (lines 84-128), entered with
`this.voiceChannel` equal to `vc`. -/
def playTry (bot : AudioBot) (vc : VoiceChannel) (i : Interaction) (env : Env) : Result :=
  (match bot.currentConnection with
    | some c =>
      if c.channelId ≠ vc.id then destroyConnection bot c env else ⟨bot, [], none⟩
    | none => ⟨bot, [], none⟩).andThen fun bot1 =>
  match i.songUrl with
  | none => ⟨bot1, [], some "Required option \"song_url\" not found."⟩
  | some query =>
    if bot1.isRecording then
      ⟨bot1, [], some "this.stopRecording is not a function"⟩
    else
      match env.play vc query with
      | .error m => ⟨bot1, [.playerPlay vc query], some m⟩
      | .ok track =>
        ⟨{ bot1 with endListeners := bot1.endListeners + 1 },
          [.playerPlay vc query, .onEnd,
            .followUp ("**" ++ track.cleanTitle ++ "** enqueued!")],
          none⟩

/-- Lines 67-70: `deferReply()` is called unless the interaction is already
deferred or replied to; the call marks the interaction as deferred.  The
result is the interaction afterwards and the calls issued. -/
def acknowledge (i : Interaction) : Interaction × List Effect :=
  if !i.deferred && !i.replied then ({ i with deferred := true }, [.deferReply])
  else (i, [])

/-- Lines 73-75: with nothing bound, `this.voiceChannel` is assigned
`interaction.member.voice.channel`. -/
def bindChannel (bot : AudioBot) (i : Interaction) : AudioBot :=
  match bot.voiceChannel with
  | some _ => bot
  | none => { bot with voiceChannel := i.memberVoiceChannel }

/-- The `catch` block of `playCommand` (lines 130-135) for an error with
message `m`. -/
def playCatch (i : Interaction) (m : String) : List Effect :=
  if !i.replied && !i.deferred then [.followUp ("Something went wrong: " ++ m)]
  else []

/-- The function `async playCommand(interaction)`. -/
def playCommand (bot : AudioBot) (i : Interaction) (env : Env) : Result :=
  let bot0 : AudioBot := { bot with isPlaying := true }
  let ack := acknowledge i
  let bot1 := bindChannel bot0 ack.1
  match bot1.voiceChannel with
  | none =>
    ⟨bot1, ack.2 ++ [.followUp "You need to join a voice channel first!"], none⟩
  | some vc =>
    let t := playTry bot1 vc ack.1 env
    ⟨t.bot,
      ack.2 ++ t.effects ++
        (match t.threw with
          | none => []
          | some m => playCatch ack.1 m),
      none⟩

/-! ## skipCommand and stopCommand (lines 139-216) -/

/-- The expression `client?.dev?.error || '⚠️ Error'`: the fallback is used
when the property is missing or is the empty string. -/
def errorMessage (i : Interaction) : String :=
  match i.devError with
  | some s => if s = "" then "⚠️ Error" else s
  | none => "⚠️ Error"

/-- The reply sent when `useQueue` returns nothing. -/
def notInVoiceReply (i : Interaction) : Effect :=
  .reply (errorMessage i ++ " | I am **not** in a voice channel") true

/-- The reply sent when the queue has no current track. -/
def noTrackReply (i : Interaction) : Effect :=
  .reply (errorMessage i ++ " | There is no track **currently** playing") true

/-- The reply of the empty-queue branch of `skipCommand`. -/
def noMoreTracksReply : Effect :=
  .reply "⏹ | There are no more tracks to play, stopping the music" false

/-- The reply at the end of `skipCommand`. -/
def skippedReply : Effect :=
  .reply "⏩ | I have skipped to the next track" false

/-- The reply at the end of `stopCommand`. -/
def stoppedReply : Effect :=
  .reply "⏹ | I have stopped the music" false

/-- How a `try` block ends: by a `return` inside it, by running off its end, or
by an exception (which the `catch` then logs). -/
inductive Completion where
  | returned
  | fellThrough
  | threw (msg : String)
deriving DecidableEq, Repr

/-- State and calls of a `try` block together with the way it ended. -/
structure TryResult where
  bot : AudioBot
  effects : List Effect
  completion : Completion
deriving DecidableEq, Repr

/-- The `try` block of `skipCommand` (lines 141-161). -/
def skipTry (bot : AudioBot) (i : Interaction) (env : Env) : TryResult :=
  match env.useQueue i.guildId with
  | none => ⟨bot, [notInVoiceReply i], .returned⟩
  | some queue =>
    match queue.currentTrack with
    | none => ⟨bot, [noTrackReply i], .returned⟩
    | some _ =>
      if jsNot queue.tracks.length then
        let bot1 : AudioBot := { bot with isPlaying := false }
        match env.stopThrows with
        | some m => ⟨bot1, [.nodeStop i.guildId], .threw m⟩
        | none => ⟨bot1, [.nodeStop i.guildId, noMoreTracksReply], .returned⟩
      else
        match env.skipThrows with
        | some m => ⟨bot, [.nodeSkip i.guildId], .threw m⟩
        | none => ⟨bot, [.nodeSkip i.guildId], .fellThrough⟩

/-- The function `async skipCommand(interaction)`. -/
def skipCommand (bot : AudioBot) (i : Interaction) (env : Env) : Result :=
  let t := skipTry bot i env
  match t.completion with
  | .returned => ⟨t.bot, t.effects, none⟩
  | _ => ⟨t.bot, t.effects ++ [skippedReply], none⟩

/-- Lines 198-207 of `stopCommand`: drop the connection if there is one, then
reset `isPlaying`. -/
def stopTeardown (bot : AudioBot) (env : Env) : Result :=
  (match bot.currentConnection with
    | some c => destroyConnection bot c env
    | none => ⟨bot, [], none⟩).andThen fun bot1 =>
  ⟨{ bot1 with isPlaying := false }, [], none⟩

/-- The `try` block of `stopCommand` (lines 175-207). -/
def stopTry (bot : AudioBot) (i : Interaction) (env : Env) : TryResult :=
  match env.useQueue i.guildId with
  | none => ⟨bot, [notInVoiceReply i], .returned⟩
  | some queue =>
    match queue.currentTrack with
    | none => ⟨bot, [noTrackReply i], .returned⟩
    | some _ =>
      match env.clearThrows with
      | some m => ⟨bot, [.tracksClear i.guildId], .threw m⟩
      | none =>
        match env.stopThrows with
        | some m => ⟨bot, [.tracksClear i.guildId, .nodeStop i.guildId], .threw m⟩
        | none =>
          let r := stopTeardown bot env
          ⟨r.bot, [.tracksClear i.guildId, .nodeStop i.guildId] ++ r.effects,
            match r.threw with
            | some m => .threw m
            | none => .fellThrough⟩

/-- The function `async stopCommand(interaction)`. -/
def stopCommand (bot : AudioBot) (i : Interaction) (env : Env) : Result :=
  let t := stopTry bot i env
  match t.completion with
  | .returned => ⟨t.bot, t.effects, none⟩
  | _ => ⟨t.bot, t.effects ++ [stoppedReply], none⟩

/-! ## The track-end callback (lines 115-125) -/

/-- One run of the arrow function registered with `this.player.on(end, ...)`. -/
def endCallback (bot : AudioBot) (env : Env) : Result :=
  let bot1 : AudioBot := { bot with isPlaying := false }
  match bot1.currentConnection with
  | some c => destroyConnection bot1 c env
  | none => ⟨bot1, [], none⟩

/-- Runs `n` registered copies of the callback in turn; an exception in one of
them ends the emission. -/
def runListeners : Nat → AudioBot → Env → Result
  | 0, bot, _ => ⟨bot, [], none⟩
  | n + 1, bot, env => (endCallback bot env).andThen fun bot1 => runListeners n bot1 env

/-- The player emits `end`: every callback registered so far runs. -/
def trackEnd (bot : AudioBot) (env : Env) : Result :=
  runListeners bot.endListeners bot env

/-! ## The interaction dispatcher (lines 278-302) -/

/-- What `commandHandlers[command]` evaluates to.  The table is an object
literal with the own keys `play`, `skip`, `stop`; every other key is looked up
on `Object.prototype`. -/
inductive Slot where
  | play
  | skip
  | stop
  | inheritedFunction (throws : Option String)
  | inheritedObject
  | undefined
deriving DecidableEq, Repr

/-- Names of the functions on `Object.prototype` that return when called with
one argument. -/
def objectPrototypeQuiet : List String :=
  ["constructor", "hasOwnProperty", "isPrototypeOf", "propertyIsEnumerable",
    "toString", "toLocaleString", "valueOf", "__lookupGetter__", "__lookupSetter__"]

/-- Names of the functions on `Object.prototype` that throw a `TypeError` when
their second argument is not callable. -/
def objectPrototypeStrict : List String :=
  ["__defineGetter__", "__defineSetter__"]

/-- The property lookup `commandHandlers[command]`. -/
def commandHandlers (command : String) : Slot :=
  if command = "play" then .play
  else if command = "skip" then .skip
  else if command = "stop" then .stop
  else if command ∈ objectPrototypeQuiet then .inheritedFunction none
  else if command ∈ objectPrototypeStrict then
    .inheritedFunction (some "Object.prototype accessor helper: Expecting function")
  else if command = "__proto__" then .inheritedObject
  else .undefined

/-- The call `commandHandlers[command](interaction)` for a truthy slot. -/
def callSlot (slot : Slot) (bot : AudioBot) (i : Interaction) (env : Env) : Result :=
  match slot with
  | .play => playCommand bot i env
  | .skip => skipCommand bot i env
  | .stop => stopCommand bot i env
  | .inheritedFunction none => ⟨bot, [], none⟩
  | .inheritedFunction (some m) => ⟨bot, [], some m⟩
  | .inheritedObject => ⟨bot, [], some "commandHandlers[command] is not a function"⟩
  | .undefined => ⟨bot, [], some "commandHandlers[command] is not a function"⟩

/-- The reply of the `else` branch of the dispatcher. -/
def unknownCommandReply : Effect :=
  .reply "Unknown command." false

/-- The listener registered on `interactionCreate`. -/
def onInteractionCreate (bot : AudioBot) (i : Interaction) (env : Env) : Result :=
  if !i.isCommand then ⟨bot, [], none⟩
  else
    match commandHandlers i.commandName with
    | .undefined => ⟨bot, [unknownCommandReply], none⟩
    | slot =>
      let r := callSlot slot bot i env
      match r.threw with
      | none => r
      | some _ =>
        ⟨r.bot, r.effects ++ [.reply "There was an error executing that command." false], none⟩

/-! ## Runs of the bot -/

/-- One thing that can happen to a running bot, with the collaborators' answers
during it. -/
inductive Event where
  | play (i : Interaction) (env : Env)
  | skip (i : Interaction) (env : Env)
  | stop (i : Interaction) (env : Env)
  | trackEnd (env : Env)

/-- The guild a command was issued in; the track-end callback belongs to none. -/
def Event.guild : Event → Option String
  | .play i _ => some i.guildId
  | .skip i _ => some i.guildId
  | .stop i _ => some i.guildId
  | .trackEnd _ => none

/-- Whether the event is a play command. -/
def Event.isPlay : Event → Bool
  | .play _ _ => true
  | _ => false

/-- Runs one event. -/
def step (bot : AudioBot) : Event → Result
  | .play i env => playCommand bot i env
  | .skip i env => skipCommand bot i env
  | .stop i env => stopCommand bot i env
  | .trackEnd env => trackEnd bot env

/-- The bot after a sequence of events. -/
def run (bot : AudioBot) : List Event → AudioBot
  | [] => bot
  | e :: es => run (step bot e).bot es

/-- All calls issued during a sequence of events. -/
def trace (bot : AudioBot) : List Event → List Effect
  | [] => []
  | e :: es => (step bot e).effects ++ trace (step bot e).bot es

/-- States the bot can be in: those a sequence of events leads to from the
constructor state. -/
def Reachable (bot : AudioBot) : Prop :=
  ∃ es : List Event, run AudioBot.init es = bot

/-! ## syncCommands (lines 218-276) -/

/-- An entry of the `options` array of a command definition. -/
structure CommandOption where
  name : String
  description : String
  type : Nat
  required : Bool
deriving DecidableEq, Repr

/-- A slash-command definition as passed to `guild.commands.create`. -/
structure CommandSpec where
  name : String
  description : String
  options : List CommandOption
deriving DecidableEq, Repr

/-- The `play` entry of the `commands` array. -/
def playSpec : CommandSpec :=
  { name := "play"
    description := "Play a song"
    options := [{ name := "song_url", description := "Name of the song to play",
                  type := 3, required := true }] }

/-- The `skip` entry of the `commands` array. -/
def skipSpec : CommandSpec :=
  { name := "skip", description := "Skip the current song", options := [] }

/-- The `stop` entry of the `commands` array. -/
def stopSpec : CommandSpec :=
  { name := "stop", description := "Stop the music", options := [] }

/-- The array `commands` of lines 234-255. -/
def commands : List CommandSpec := [playSpec, skipSpec, stopSpec]

/-- The commands registered in the guild; `fetch()` returns them and
`existingCommands.size` is the length of the list. -/
abbrev Registry := List CommandSpec

/-- Calls on `guild.commands`, in the order they are issued. -/
inductive RegistryCall where
  | fetch
  | set (cmds : List CommandSpec)
  | create (cmd : CommandSpec)
deriving DecidableEq, Repr

/-- Which registry calls fail during one run of `syncCommands`. -/
structure RegistryEnv where
  fetchThrows : Option String
  setThrows : Option String
  createThrows : CommandSpec → Option String

/-- The registry after a successful `guild.commands.set(cmds)`: the registered
commands are replaced by `cmds`. -/
def Registry.set (_r : Registry) (cmds : List CommandSpec) : Registry := cmds

/-- The registry after a successful `guild.commands.create(cmd)`: the command
is added, replacing a registered command of the same name (the platform keeps
one command per name). -/
def Registry.create (r : Registry) (cmd : CommandSpec) : Registry :=
  r.filter (fun c => c.name ≠ cmd.name) ++ [cmd]

/-- Calls issued by a run of `syncCommands` and the registry it leaves. -/
structure SyncResult where
  calls : List RegistryCall
  registry : Registry
deriving DecidableEq, Repr

/-- The `for (const command of commands)` loop of lines 269-272; the first
failing `create` ends it. -/
def createLoop (renv : RegistryEnv) : List CommandSpec → Registry → SyncResult
  | [], r => ⟨[], r⟩
  | cmd :: rest, r =>
    match renv.createThrows cmd with
    | some _ => ⟨[.create cmd], r⟩
    | none =>
      let t := createLoop renv rest (Registry.create r cmd)
      ⟨.create cmd :: t.calls, t.registry⟩

/-- The function `async syncCommands()`; `guild` is
`this.client.guilds.cache.first()` given by the commands registered in it. -/
def syncCommands (guild : Option Registry) (renv : RegistryEnv) : Option SyncResult :=
  match guild with
  | none => none
  | some existing =>
    match renv.fetchThrows with
    | some _ => some ⟨[.fetch], existing⟩
    | none =>
      if existing.length > 3 then
        match renv.setThrows with
        | some _ => some ⟨[.fetch, .set []], existing⟩
        | none =>
          let t := createLoop renv commands (Registry.set existing [])
          some ⟨[.fetch, .set []] ++ t.calls, t.registry⟩
      else
        let t := createLoop renv commands existing
        some ⟨[.fetch] ++ t.calls, t.registry⟩

/-- No registry call fails. -/
def RegistryEnv.allSucceed (renv : RegistryEnv) : Prop :=
  renv.fetchThrows = none ∧ renv.setThrows = none ∧ ∀ c, renv.createThrows c = none

/-- The guild `g` has no queue, or its queue has no current track: the two
guards at the head of `skipCommand` and `stopCommand`. -/
def Env.idle (env : Env) (g : String) : Bool :=
  match env.useQueue g with
  | none => true
  | some q => q.currentTrack.isNone

/-- The calls `stopCommand` issues on the connection: `destroy` if a handle is
held, nothing otherwise. -/
def destroyCalls (bot : AudioBot) : List Effect :=
  match bot.currentConnection with
  | some c => [.destroy c]
  | none => []

/-- No call on a guild queue or on the connection throws. -/
def Env.callsReturn (env : Env) : Prop :=
  env.clearThrows = none ∧ env.stopThrows = none ∧ env.skipThrows = none ∧
    env.destroyThrows = none

/-- An environment in which every call returns, `useQueue` answers `q`, and
`player.play` resolves to a track titled after the query. -/
def Env.calm (q : String → Option QueueView) : Env :=
  { useQueue := q
    play := fun _ query => .ok ⟨query⟩
    clearThrows := none
    stopThrows := none
    skipThrows := none
    destroyThrows := none }

/-- An environment like `Env.calm` in which `player.play` rejects with `m`. -/
def Env.playFails (m : String) : Env :=
  { useQueue := fun _ => none
    play := fun _ _ => .error m
    clearThrows := none
    stopThrows := none
    skipThrows := none
    destroyThrows := none }

/-- A fresh slash-command interaction. -/
def Interaction.fresh (command guild : String) (channel : Option VoiceChannel)
    (song : Option String) : Interaction :=
  { isCommand := true
    commandName := command
    guildId := guild
    memberVoiceChannel := channel
    songUrl := song
    deferred := false
    replied := false
    devError := none }

/-! ## Histories and guilds -/

/-- The events of a history that are not commands issued in guild `a`. -/
def outside (a : String) (es : List Event) : List Event :=
  es.filter fun e => decide (e.guild ≠ some a)

/-- Whether the event is a play command whose issuing member is in a voice
channel: the only events that can bind `voiceChannel`. -/
def Event.binds : Event → Bool
  | .play i _ => i.memberVoiceChannel.isSome
  | _ => false

/-- The assignment `this.voiceChannel = interaction.member.voice.channel` made
by a play command when nothing is bound, as a function of the binding. -/
def bindAfter (v : Option VoiceChannel) : Event → Option VoiceChannel
  | .play i _ =>
    match v with
    | some x => some x
    | none => i.memberVoiceChannel
  | _ => v

/-! ## Concrete inputs used in the examples -/

/-- A voice channel of guild A. -/
def channelA : VoiceChannel := ⟨"voice-a"⟩

/-- A voice channel of guild B. -/
def channelB : VoiceChannel := ⟨"voice-b"⟩

/-- A play command from a member of guild A sitting in `channelA`. -/
def playInA : Interaction :=
  Interaction.fresh "play" "guild-a" (some channelA) (some "song")

/-- A play command from a member of guild B sitting in `channelB`. -/
def playInB : Interaction :=
  Interaction.fresh "play" "guild-b" (some channelB) (some "song")

/-- A play command from a member who is in no voice channel. -/
def playOffVoice : Interaction :=
  Interaction.fresh "play" "guild-a" none (some "song")

/-- A skip command issued in guild A. -/
def skipInA : Interaction :=
  Interaction.fresh "skip" "guild-a" (some channelA) none

/-- A stop command issued in guild A. -/
def stopInA : Interaction :=
  Interaction.fresh "stop" "guild-a" (some channelA) none

/-- The player's answers while nothing is queued anywhere. -/
def quietEnv : Env := Env.calm fun _ => none

/-- The player's answers while every guild plays its last track. -/
def lastTrackEnv : Env := Env.calm fun _ => some ⟨some ⟨"song"⟩, ⟨0⟩⟩

/-- The player's answers while every guild plays a track with two more queued. -/
def moreTracksEnv : Env := Env.calm fun _ => some ⟨some ⟨"song"⟩, ⟨2⟩⟩

/-- The answers of `lastTrackEnv`, except that `queue.node.stop()` throws. -/
def stopThrowsEnv : Env := { lastTrackEnv with stopThrows := some "boom" }

/-- The answers of `lastTrackEnv`, except that `queue.tracks.clear()` throws. -/
def clearThrowsEnv : Env := { lastTrackEnv with clearThrows := some "boom" }

/-- A bot state that holds a connection handle (no run of the program builds
one; it only instantiates statements made about every state). -/
def connectedBot : AudioBot :=
  { isPlaying := true
    currentConnection := some ⟨"voice-a"⟩
    voiceChannel := some channelA
    isRecording := false
    endListeners := 1 }

/-! ## Theorems -/

/-! ### The stages of playCommand -/

/-- Acknowledging does not change the member's voice channel. -/
theorem acknowledge_memberVoiceChannel (i : Interaction) :
    (acknowledge i).1.memberVoiceChannel = i.memberVoiceChannel := by
  unfold acknowledge
  split <;> rfl

/-- Acknowledging does not change the `song_url` option. -/
theorem acknowledge_songUrl (i : Interaction) :
    (acknowledge i).1.songUrl = i.songUrl := by
  unfold acknowledge
  split <;> rfl

/-- Acknowledging issues `deferReply` exactly when the interaction is neither
deferred nor replied to. -/
theorem acknowledge_effects (i : Interaction) :
    (acknowledge i).2 = if !i.deferred && !i.replied then [Effect.deferReply] else [] := by
  unfold acknowledge
  split <;> rfl

/-- After the acknowledgement the interaction is deferred or replied to, so the
`followUp` in the `catch` block of `playCommand` is never issued. -/
theorem playCatch_acknowledge (i : Interaction) (m : String) :
    playCatch (acknowledge i).1 m = [] := by
  unfold playCatch acknowledge
  cases hd : i.deferred <;> cases hr : i.replied <;> simp [hd, hr]

/-- A property of the bot that holds after the first of two blocks and is
kept by the second holds after their sequence. -/
theorem Result.andThen_bot (P : AudioBot → Prop) (r : Result) (k : AudioBot → Result)
    (hr : P r.bot) (hk : ∀ x, P x → P (k x).bot) : P (r.andThen k).bot := by
  unfold Result.andThen
  split
  · exact hr
  · exact hk _ hr

/-- The `try` block of `playCommand` writes two fields only: it may null
`currentConnection` and it may count one more `end` listener. -/
theorem playTry_frame (P : AudioBot → Prop) (b : AudioBot) (vc : VoiceChannel)
    (i : Interaction) (env : Env) (hP : P b)
    (hconn : ∀ x, P x → P { x with currentConnection := none })
    (hlis : ∀ x, P x → P { x with endListeners := x.endListeners + 1 }) :
    P (playTry b vc i env).bot := by
  unfold playTry
  apply Result.andThen_bot P
  · split
    · split
      · unfold destroyConnection
        split
        · exact hP
        · exact hconn _ hP
      · exact hP
    · exact hP
  · intro x hx
    split
    · exact hx
    · split
      · exact hx
      · split
        · exact hx
        · exact hlis _ hx

/-- The function `playCommand` writes four fields only: `isPlaying`,
`voiceChannel`, `currentConnection` (to null) and the `end` listeners. -/
theorem playCommand_frame (P : AudioBot → Prop) (b : AudioBot) (i : Interaction)
    (env : Env) (hP : P b)
    (hplay : ∀ x, P x → P { x with isPlaying := true })
    (hbind : ∀ x v, P x → P { x with voiceChannel := v })
    (hconn : ∀ x, P x → P { x with currentConnection := none })
    (hlis : ∀ x, P x → P { x with endListeners := x.endListeners + 1 }) :
    P (playCommand b i env).bot := by
  have h1 : P (bindChannel { b with isPlaying := true } (acknowledge i).1) := by
    unfold bindChannel
    split
    · exact hplay _ hP
    · exact hbind _ _ (hplay _ hP)
  unfold playCommand
  simp only
  split
  · exact h1
  · exact playTry_frame P _ _ _ env h1 hconn hlis

/-- The function `playCommand` catches whatever its `try` block throws. -/
theorem playCommand_threw (b : AudioBot) (i : Interaction) (env : Env) :
    (playCommand b i env).threw = none := by
  unfold playCommand
  simp only
  split <;> rfl

/-- With a channel bound, `playCommand` runs its `try` block on that channel. -/
theorem playCommand_bound (b : AudioBot) (i : Interaction) (env : Env)
    (vc : VoiceChannel) (hv : b.voiceChannel = some vc) :
    playCommand b i env
      = ⟨(playTry { b with isPlaying := true } vc (acknowledge i).1 env).bot,
          (acknowledge i).2 ++
            (playTry { b with isPlaying := true } vc (acknowledge i).1 env).effects,
          none⟩ := by
  obtain ⟨ip, cc, vch, rec, n⟩ := b
  simp only at hv
  subst hv
  simp only [playCommand, bindChannel, playCatch_acknowledge]
  split <;> simp

/-- With nothing bound and the member in a voice channel, `playCommand` binds
that channel and runs its `try` block on it. -/
theorem playCommand_binding (b : AudioBot) (i : Interaction) (env : Env)
    (vc : VoiceChannel) (hv : b.voiceChannel = none)
    (hm : i.memberVoiceChannel = some vc) :
    playCommand b i env
      = ⟨(playTry { b with isPlaying := true, voiceChannel := some vc } vc
            (acknowledge i).1 env).bot,
          (acknowledge i).2 ++
            (playTry { b with isPlaying := true, voiceChannel := some vc } vc
              (acknowledge i).1 env).effects,
          none⟩ := by
  obtain ⟨ip, cc, vch, rec, n⟩ := b
  simp only at hv
  subst hv
  simp only [playCommand, bindChannel, playCatch_acknowledge, acknowledge_memberVoiceChannel,
    hm]
  split <;> simp

/-- With nothing bound and the member in no voice channel, `playCommand` only
acknowledges and replies. -/
theorem playCommand_unbound (b : AudioBot) (i : Interaction) (env : Env)
    (hv : b.voiceChannel = none) (hm : i.memberVoiceChannel = none) :
    playCommand b i env
      = ⟨{ b with isPlaying := true },
          (acknowledge i).2 ++ [.followUp "You need to join a voice channel first!"],
          none⟩ := by
  obtain ⟨ip, cc, vch, rec, n⟩ := b
  simp only at hv
  subst hv
  simp only [playCommand, bindChannel, acknowledge_memberVoiceChannel, hm]

/-- Without a connection and with `isRecording` unset, the `try` block of
`playCommand` reads the query and calls `player.play`. -/
theorem playTry_noConnection_eq (b : AudioBot) (vc : VoiceChannel) (i : Interaction)
    (env : Env) (q : String) (hc : b.currentConnection = none)
    (hr : b.isRecording = false) (hq : i.songUrl = some q) :
    playTry b vc i env
      = match env.play vc q with
        | .error m => ⟨b, [.playerPlay vc q], some m⟩
        | .ok track =>
          ⟨{ b with endListeners := b.endListeners + 1 },
            [.playerPlay vc q, .onEnd,
              .followUp ("**" ++ track.cleanTitle ++ "** enqueued!")],
            none⟩ := by
  unfold playTry
  simp only [hc, hq, Result.andThen, hr]
  generalize env.play vc q = res
  cases res <;> simp

/-- Entered without a connection, the `try` block of `playCommand` calls no
`destroy`. -/
theorem playTry_noDestroy (b : AudioBot) (vc : VoiceChannel) (i : Interaction)
    (env : Env) (hc : b.currentConnection = none) :
    ∀ x ∈ (playTry b vc i env).effects, x.isDestroy = false := by
  unfold playTry
  simp only [hc, Result.andThen]
  cases i.songUrl with
  | none => simp
  | some q =>
    cases b.isRecording with
    | true => simp
    | false =>
      simp only
      generalize env.play vc q = res
      cases res <;> simp [Effect.isDestroy]

/-! ### playCommand -/

/-- C1 (as the code behaves): when the interaction is not acknowledged on
entry, a voice channel is bound or can be resolved, no connection is held and
`player.play` throws an error with message `m`, `playCommand` returns without
throwing and its only calls are `deferReply` and `player.play`: the `followUp`
of the `catch` block is not issued, because `deferReply` has already marked the
interaction as deferred. -/
theorem playCommand_provider_error_sends_no_reply
    (b : AudioBot) (i : Interaction) (env : Env) (vc : VoiceChannel) (q m : String)
    (hconn : b.currentConnection = none) (hrec : b.isRecording = false)
    (hch : b.voiceChannel = some vc ∨
      (b.voiceChannel = none ∧ i.memberVoiceChannel = some vc))
    (hd : i.deferred = false) (hr : i.replied = false)
    (hq : i.songUrl = some q) (hp : env.play vc q = .error m) :
    (playCommand b i env).effects = [.deferReply, .playerPlay vc q] ∧
      (playCommand b i env).threw = none := by
  have hq2 : (acknowledge i).1.songUrl = some q := by rw [acknowledge_songUrl, hq]
  have ha : (acknowledge i).2 = [Effect.deferReply] := by
    simp [acknowledge_effects, hd, hr]
  rcases hch with hb | ⟨hb, hm⟩
  · rw [playCommand_bound b i env vc hb,
      playTry_noConnection_eq { b with isPlaying := true } vc _ env q hconn hrec hq2, hp, ha]
    exact ⟨rfl, rfl⟩
  · rw [playCommand_binding b i env vc hb hm,
      playTry_noConnection_eq { b with isPlaying := true, voiceChannel := some vc } vc _ env q
        hconn hrec hq2, hp, ha]
    exact ⟨rfl, rfl⟩

/-- The failing input of C1: a fresh play command from a member in `channelA`
on the constructor state, with a player that rejects with "boom". -/
theorem playCommand_provider_error_example :
    (playCommand AudioBot.init playInA (Env.playFails "boom")).effects
        = [.deferReply, .playerPlay channelA "song"] ∧
      (playCommand AudioBot.init playInA (Env.playFails "boom")).threw = none :=
  playCommand_provider_error_sends_no_reply AudioBot.init playInA (Env.playFails "boom")
    channelA "song" "boom" rfl rfl (Or.inr ⟨rfl, rfl⟩) rfl rfl rfl rfl

/-- C2: with no bound voice channel and an issuing member who is in no voice
channel, `playCommand` acknowledges the interaction if needed, sends the reply
"You need to join a voice channel first!", makes no call on the player, leaves
the voice channel unbound and returns without throwing. -/
theorem playCommand_without_channel
    (bot : AudioBot) (i : Interaction) (env : Env)
    (hb : bot.voiceChannel = none) (hm : i.memberVoiceChannel = none) :
    (playCommand bot i env).effects
        = (if !i.deferred && !i.replied then [Effect.deferReply] else []) ++
            [.followUp "You need to join a voice channel first!"] ∧
      (∀ e ∈ (playCommand bot i env).effects, e.isProviderCall = false) ∧
      (playCommand bot i env).bot.voiceChannel = none ∧
      (playCommand bot i env).threw = none := by
  rw [playCommand_unbound bot i env hb hm, acknowledge_effects]
  refine ⟨rfl, ?_, hb, rfl⟩
  intro e he
  simp only [List.mem_append, List.mem_singleton] at he
  rcases he with he | he
  · split at he
    · simp only [List.mem_singleton] at he
      subst he
      rfl
    · simp at he
  · subst he
    rfl

/-- C2 at a concrete input: the constructor state and a fresh play command
from a member who is in no voice channel. -/
theorem playCommand_without_channel_example :
    (playCommand AudioBot.init playOffVoice (Env.calm fun _ => none)).effects
        = [.deferReply, .followUp "You need to join a voice channel first!"] ∧
      (∀ e ∈ (playCommand AudioBot.init playOffVoice (Env.calm fun _ => none)).effects,
        e.isProviderCall = false) ∧
      (playCommand AudioBot.init playOffVoice (Env.calm fun _ => none)).bot.voiceChannel
        = none ∧
      (playCommand AudioBot.init playOffVoice (Env.calm fun _ => none)).threw = none :=
  playCommand_without_channel AudioBot.init playOffVoice (Env.calm fun _ => none) rfl rfl

/-! ### Facts about single steps -/

/-- The track-end callback clears `isPlaying`, whether or not `destroy` throws. -/
theorem endCallback_isPlaying (b : AudioBot) (env : Env) :
    (endCallback b env).bot.isPlaying = false := by
  unfold endCallback destroyConnection
  cases b.currentConnection <;> cases env.destroyThrows <;> rfl

/-- The track-end callback does not touch `voiceChannel`. -/
theorem endCallback_voiceChannel (b : AudioBot) (env : Env) :
    (endCallback b env).bot.voiceChannel = b.voiceChannel := by
  unfold endCallback destroyConnection
  cases b.currentConnection <;> cases env.destroyThrows <;> rfl

/-- Without a connection the track-end callback only clears `isPlaying`. -/
theorem endCallback_noConnection (b : AudioBot) (env : Env)
    (h : b.currentConnection = none) :
    endCallback b env = ⟨{ b with isPlaying := false }, [], none⟩ := by
  simp [endCallback, h]

/-- Running the registered callbacks never sets `isPlaying`. -/
theorem runListeners_isPlaying (n : Nat) (b : AudioBot) (env : Env)
    (h : (runListeners n b env).bot.isPlaying = true) : b.isPlaying = true := by
  induction n generalizing b with
  | zero => simpa [runListeners] using h
  | succ n ih =>
    have hcb := endCallback_isPlaying b env
    simp only [runListeners, Result.andThen] at h
    split at h
    · simp [hcb] at h
    · have := ih _ h
      simp [hcb] at this

/-- Running the registered callbacks does not touch `voiceChannel`. -/
theorem runListeners_voiceChannel (n : Nat) (b : AudioBot) (env : Env) :
    (runListeners n b env).bot.voiceChannel = b.voiceChannel := by
  induction n generalizing b with
  | zero => rfl
  | succ n ih =>
    have hcb := endCallback_voiceChannel b env
    simp only [runListeners, Result.andThen]
    split
    · exact hcb
    · rw [ih]; exact hcb

/-- Without a connection, running the registered callbacks keeps it absent and
issues no call. -/
theorem runListeners_noConnection (n : Nat) (b : AudioBot) (env : Env)
    (h : b.currentConnection = none) :
    (runListeners n b env).bot.currentConnection = none ∧
      (runListeners n b env).effects = [] := by
  induction n generalizing b with
  | zero => exact ⟨h, rfl⟩
  | succ n ih =>
    have h2 := ih { b with isPlaying := false } h
    simp [runListeners, Result.andThen, endCallback_noConnection b env h, h2]

/-- The setting `isPlaying` can only come from a play command: an event that is
not a play command never turns `isPlaying` on. -/
theorem step_isPlaying_of_not_play (b : AudioBot) (e : Event)
    (hne : e.isPlay = false) (h : (step b e).bot.isPlaying = true) :
    b.isPlaying = true := by
  cases e with
  | play i env => simp [Event.isPlay] at hne
  | skip i env =>
    simp only [step, skipCommand, skipTry] at h
    repeat' split at h
    all_goals simp_all
  | stop i env =>
    simp only [step, stopCommand, stopTry, stopTeardown, Result.andThen,
      destroyConnection] at h
    repeat' split at h
    all_goals simp_all
  | trackEnd env => exact runListeners_isPlaying _ b env h

/-- A bound voice channel survives every event. -/
theorem step_voiceChannel (b : AudioBot) (e : Event) (v : VoiceChannel)
    (h : b.voiceChannel = some v) : (step b e).bot.voiceChannel = some v := by
  cases e with
  | play i env =>
    simp only [step]
    rw [playCommand_bound b i env v h]
    exact playTry_frame (fun x => x.voiceChannel = some v) _ v _ env h
      (fun _ hx => hx) (fun _ hx => hx)
  | skip i env =>
    simp only [step, skipCommand, skipTry]
    repeat' split
    all_goals simp_all
  | stop i env =>
    simp only [step, stopCommand, stopTry, stopTeardown, Result.andThen,
      destroyConnection]
    repeat' split
    all_goals simp_all
  | trackEnd env =>
    simp only [step, trackEnd]
    rw [runListeners_voiceChannel]; exact h

/-- Entered without a connection, `playCommand` leaves the bot without one and
calls no `destroy`. -/
theorem playCommand_noConnection (b : AudioBot) (i : Interaction) (env : Env)
    (h : b.currentConnection = none) :
    (playCommand b i env).bot.currentConnection = none ∧
      ∀ x ∈ (playCommand b i env).effects, x.isDestroy = false := by
  refine ⟨playCommand_frame (fun x => x.currentConnection = none) b i env h
    (fun _ hx => hx) (fun _ _ hx => hx) (fun _ _ => rfl) (fun _ hx => hx), ?_⟩
  have hack : ∀ x ∈ (acknowledge i).2, x.isDestroy = false := by
    intro x hx
    rw [acknowledge_effects] at hx
    split at hx
    · simp only [List.mem_singleton] at hx
      subst hx
      rfl
    · simp at hx
  intro x hx
  cases hv : b.voiceChannel with
  | some vc =>
    rw [playCommand_bound b i env vc hv] at hx
    simp only [List.mem_append] at hx
    rcases hx with hx | hx
    · exact hack x hx
    · exact playTry_noDestroy { b with isPlaying := true } vc _ env h x hx
  | none =>
    cases hm : i.memberVoiceChannel with
    | none =>
      rw [playCommand_unbound b i env hv hm] at hx
      simp only [List.mem_append, List.mem_singleton] at hx
      rcases hx with hx | hx
      · exact hack x hx
      · subst hx
        rfl
    | some vc =>
      rw [playCommand_binding b i env vc hv hm] at hx
      simp only [List.mem_append] at hx
      rcases hx with hx | hx
      · exact hack x hx
      · exact playTry_noDestroy { b with isPlaying := true, voiceChannel := some vc } vc _ env
          h x hx

/-- From a state without a connection, an event leaves the bot without a
connection and calls no `destroy`. -/
theorem step_noConnection (b : AudioBot) (e : Event)
    (h : b.currentConnection = none) :
    (step b e).bot.currentConnection = none ∧
      ∀ x ∈ (step b e).effects, x.isDestroy = false := by
  cases e with
  | play i env => exact playCommand_noConnection b i env h
  | skip i env =>
    simp only [step, skipCommand, skipTry]
    repeat' split
    all_goals simp_all [Effect.isDestroy, notInVoiceReply, noTrackReply,
      noMoreTracksReply, skippedReply]
  | stop i env =>
    simp only [step, stopCommand, stopTry, stopTeardown, Result.andThen, h]
    repeat' split
    all_goals simp_all [Effect.isDestroy, notInVoiceReply, noTrackReply, stoppedReply]
  | trackEnd env =>
    have := runListeners_noConnection b.endListeners b env h
    simp [step, trackEnd, this]

/-! ### Facts about runs -/

/-- A run from a state without a connection ends without one and calls no
`destroy`. -/
theorem run_noConnection (es : List Event) (b : AudioBot)
    (h : b.currentConnection = none) :
    (run b es).currentConnection = none ∧ ∀ x ∈ trace b es, x.isDestroy = false := by
  induction es generalizing b with
  | nil => exact ⟨h, by simp [trace]⟩
  | cons e es ih =>
    obtain ⟨h1, h2⟩ := step_noConnection b e h
    obtain ⟨h3, h4⟩ := ih (step b e).bot h1
    refine ⟨h3, ?_⟩
    intro x hx
    simp only [trace, List.mem_append] at hx
    rcases hx with hx | hx
    · exact h2 x hx
    · exact h4 x hx

/-- A bound voice channel survives every run. -/
theorem run_voiceChannel (es : List Event) (b : AudioBot) (v : VoiceChannel)
    (h : b.voiceChannel = some v) : (run b es).voiceChannel = some v := by
  induction es generalizing b with
  | nil => exact h
  | cons e es ih => exact ih (step b e).bot (step_voiceChannel b e v h)

/-- If `isPlaying` holds after a run, it held before or the run has a play
command. -/
theorem run_isPlaying (es : List Event) (b : AudioBot)
    (h : (run b es).isPlaying = true) :
    b.isPlaying = true ∨ ∃ e ∈ es, e.isPlay = true := by
  induction es generalizing b with
  | nil => exact Or.inl h
  | cons e es ih =>
    rcases ih (step b e).bot h with h1 | ⟨e2, he2, hp⟩
    · cases hpl : e.isPlay with
      | true => exact Or.inr ⟨e, List.mem_cons_self _ _, hpl⟩
      | false => exact Or.inl (step_isPlaying_of_not_play b e hpl h1)
    · exact Or.inr ⟨e2, List.mem_cons_of_mem _ he2, hp⟩

/-! ### Invariants of the reachable states -/

/-- C3 fails on the code: after one play command on the constructor state the
bot is reachable, `isPlaying` is true and `currentConnection` is null. -/
theorem isPlaying_without_connection :
    Reachable (run AudioBot.init [.play playInA quietEnv]) ∧
      (run AudioBot.init [.play playInA quietEnv]).isPlaying = true ∧
      (run AudioBot.init [.play playInA quietEnv]).currentConnection = none :=
  ⟨⟨[.play playInA quietEnv], rfl⟩, rfl, rfl⟩

/-- C3 (amended): in every state reached from the constructor state by play,
skip, stop commands and track-end callbacks, `isPlaying` is true only if a
play command was issued on the way; the connection handle is null in that
state. -/
theorem isPlaying_only_after_play (es : List Event)
    (h : (run AudioBot.init es).isPlaying = true) :
    (∃ e ∈ es, e.isPlay = true) ∧ (run AudioBot.init es).currentConnection = none := by
  refine ⟨?_, (run_noConnection es AudioBot.init rfl).1⟩
  rcases run_isPlaying es AudioBot.init h with h0 | h1
  · simp [AudioBot.init] at h0
  · exact h1

/-- The amended C3 at the run that consists of one play command. -/
theorem isPlaying_only_after_play_example :
    (∃ e ∈ [Event.play playInA quietEnv], e.isPlay = true) ∧
      (run AudioBot.init [.play playInA quietEnv]).currentConnection = none :=
  isPlaying_only_after_play [.play playInA quietEnv] rfl

/-- C10: in every state reached from the constructor state by play, skip, stop
commands and track-end callbacks, `currentConnection` is null; no call to
`destroy` is issued on the way; and a voice channel bound in that state stays
bound to the same channel whatever happens next. -/
theorem reachable_never_connected (es : List Event) :
    (run AudioBot.init es).currentConnection = none ∧
      (∀ x ∈ trace AudioBot.init es, x.isDestroy = false) ∧
      (∀ (v : VoiceChannel) (next : List Event),
        (run AudioBot.init es).voiceChannel = some v →
          (run (run AudioBot.init es) next).voiceChannel = some v) :=
  ⟨(run_noConnection es AudioBot.init rfl).1, (run_noConnection es AudioBot.init rfl).2,
    fun v next hv => run_voiceChannel next _ v hv⟩

/-- C10 at a concrete run: play in guild A, a track end, then a play from guild
B keeps the channel bound by the first command. -/
theorem reachable_never_connected_example :
    (run AudioBot.init [.play playInA quietEnv, .trackEnd quietEnv]).voiceChannel
        = some channelA ∧
      (run (run AudioBot.init [.play playInA quietEnv, .trackEnd quietEnv])
        [.play playInB quietEnv, .stop stopInA lastTrackEnv]).voiceChannel = some channelA :=
  ⟨rfl, (reachable_never_connected [.play playInA quietEnv, .trackEnd quietEnv]).2.2
    channelA [.play playInB quietEnv, .stop stopInA lastTrackEnv] rfl⟩

/-! ### skipCommand -/

/-- The `else` branch of `skipCommand` (lines 159-161) is never taken: the
test `!queue.tracks.length` holds for every queue. -/
theorem jsNot_tracks_length (tracks : TrackQueue) : jsNot tracks.length = true := rfl

/-- On every guild whose queue has a current track, `skipCommand` takes the
branch written for an empty remaining queue, however many tracks are queued:
with `queue.node.stop()` returning it clears `isPlaying`, calls the queue's
stop and replies that there are no more tracks. -/
theorem skipCommand_ignores_queue_size
    (bot : AudioBot) (i : Interaction) (env : Env) (q : QueueView) (t : Track)
    (hq : env.useQueue i.guildId = some q) (ht : q.currentTrack = some t)
    (hs : env.stopThrows = none) :
    skipCommand bot i env
      = ⟨{ bot with isPlaying := false }, [.nodeStop i.guildId, noMoreTracksReply], none⟩ := by
  simp [skipCommand, skipTry, hq, ht, hs, jsNot_tracks_length]

/-- The call `queue.node.skip()` is issued by no run of `skipCommand`. -/
theorem skipCommand_never_skips (bot : AudioBot) (i : Interaction) (env : Env) :
    ∀ g, Effect.nodeSkip g ∉ (skipCommand bot i env).effects := by
  intro g
  cases hq : env.useQueue i.guildId with
  | none => simp [skipCommand, skipTry, hq, notInVoiceReply]
  | some q =>
    cases ht : q.currentTrack with
    | none => simp [skipCommand, skipTry, hq, ht, noTrackReply]
    | some t =>
      cases hs : env.stopThrows with
      | none =>
        simp [skipCommand, skipTry, hq, ht, hs, jsNot_tracks_length, noMoreTracksReply]
      | some m =>
        simp [skipCommand, skipTry, hq, ht, hs, jsNot_tracks_length, skippedReply]

/-- C5 fails on the code, on the state reached by one play command.  With the
last track playing, `skipCommand` calls the queue's stop and replies, and no
`destroy` is among its calls.  With two further tracks queued it does the very
same: it clears `isPlaying`, calls the queue's stop, not its skip, and replies
that there are no more tracks. -/
theorem skipCommand_neither_destroys_nor_skips :
    skipCommand (run AudioBot.init [.play playInA quietEnv]) skipInA lastTrackEnv
        = ⟨{ run AudioBot.init [.play playInA quietEnv] with isPlaying := false },
            [.nodeStop "guild-a", noMoreTracksReply], none⟩ ∧
      (∀ e ∈ (skipCommand (run AudioBot.init [.play playInA quietEnv]) skipInA
          lastTrackEnv).effects, e.isDestroy = false) ∧
      moreTracksEnv.useQueue skipInA.guildId = some ⟨some ⟨"song"⟩, ⟨2⟩⟩ ∧
      skipCommand (run AudioBot.init [.play playInA quietEnv]) skipInA moreTracksEnv
        = ⟨{ run AudioBot.init [.play playInA quietEnv] with isPlaying := false },
            [.nodeStop "guild-a", noMoreTracksReply], none⟩ := by
  refine ⟨rfl, ?_, rfl, rfl⟩
  intro e he
  have h : (skipCommand (run AudioBot.init [.play playInA quietEnv]) skipInA
      lastTrackEnv).effects = [.nodeStop "guild-a", noMoreTracksReply] := rfl
  rw [h] at he
  simp only [List.mem_cons, List.mem_singleton, List.not_mem_nil, or_false] at he
  rcases he with rfl | rfl <;> rfl

/-- C5 (amended): when the guild has a queue with a current track and no
further tracks queued, and `queue.node.stop()` returns, `skipCommand` calls
the queue's stop, sets `isPlaying` to false, changes no other field (the
connection handle stays as it was), calls no `destroy` and replies that there
are no more tracks.  The case of further tracks is not part of this
statement; `skipCommand_ignores_queue_size` says what the code does there. -/
theorem skipCommand_on_last_track
    (bot : AudioBot) (i : Interaction) (env : Env) (q : QueueView) (t : Track)
    (hq : env.useQueue i.guildId = some q) (ht : q.currentTrack = some t)
    (_hlast : q.tracks.size = 0) (hs : env.stopThrows = none) :
    skipCommand bot i env
        = ⟨{ bot with isPlaying := false }, [.nodeStop i.guildId, noMoreTracksReply], none⟩ ∧
      (skipCommand bot i env).bot.currentConnection = bot.currentConnection ∧
      ∀ e ∈ (skipCommand bot i env).effects, e.isDestroy = false := by
  have h := skipCommand_ignores_queue_size bot i env q t hq ht hs
  rw [h]
  refine ⟨rfl, rfl, ?_⟩
  intro e he
  simp only [List.mem_cons, List.mem_singleton, List.not_mem_nil, or_false] at he
  rcases he with rfl | rfl <;> rfl

/-- The amended C5 on the state reached by one play command, the last track
playing. -/
theorem skipCommand_on_last_track_example :
    skipCommand (run AudioBot.init [.play playInA quietEnv]) skipInA lastTrackEnv
        = ⟨{ run AudioBot.init [.play playInA quietEnv] with isPlaying := false },
            [.nodeStop "guild-a", noMoreTracksReply], none⟩ ∧
      (skipCommand (run AudioBot.init [.play playInA quietEnv]) skipInA
        lastTrackEnv).bot.currentConnection = none :=
  ⟨(skipCommand_on_last_track (run AudioBot.init [.play playInA quietEnv]) skipInA
      lastTrackEnv ⟨some ⟨"song"⟩, ⟨0⟩⟩ ⟨"song"⟩ rfl rfl rfl rfl).1,
    (skipCommand_on_last_track (run AudioBot.init [.play playInA quietEnv]) skipInA
      lastTrackEnv ⟨some ⟨"song"⟩, ⟨0⟩⟩ ⟨"song"⟩ rfl rfl rfl rfl).2.1⟩

/-- When the queue's stop throws, the `catch` block logs and the function goes
on to the final reply: `isPlaying` is already false and the user is told the
bot skipped to the next track. -/
theorem skipCommand_stop_throws
    (bot : AudioBot) (i : Interaction) (env : Env) (q : QueueView) (t : Track) (m : String)
    (hq : env.useQueue i.guildId = some q) (ht : q.currentTrack = some t)
    (hs : env.stopThrows = some m) :
    skipCommand bot i env
      = ⟨{ bot with isPlaying := false }, [.nodeStop i.guildId, skippedReply], none⟩ := by
  simp [skipCommand, skipTry, hq, ht, hs, jsNot_tracks_length]

/-! ### stopCommand -/

/-- Behaviour of `stopCommand` on an idle guild: one error reply, nothing else. -/
theorem stopCommand_idle (bot : AudioBot) (i : Interaction) (env : Env)
    (h : env.idle i.guildId = true) :
    stopCommand bot i env = ⟨bot, [notInVoiceReply i], none⟩ ∨
      stopCommand bot i env = ⟨bot, [noTrackReply i], none⟩ := by
  unfold Env.idle at h
  cases hq : env.useQueue i.guildId with
  | none => left; simp [stopCommand, stopTry, hq]
  | some q =>
    rw [hq] at h
    cases ht : q.currentTrack with
    | none => right; simp [stopCommand, stopTry, hq, ht]
    | some t => simp [ht] at h

/-- On a guild with a current track `stopCommand` starts by clearing the
track queue, whatever happens afterwards. -/
theorem stopCommand_busy_head (bot : AudioBot) (i : Interaction) (env : Env)
    (h : env.idle i.guildId = false) :
    ∃ rest, (stopCommand bot i env).effects = .tracksClear i.guildId :: rest := by
  unfold Env.idle at h
  cases hq : env.useQueue i.guildId with
  | none => simp [hq] at h
  | some q =>
    rw [hq] at h
    cases ht : q.currentTrack with
    | none => simp [ht] at h
    | some t =>
      cases hc : env.clearThrows with
      | some m => simp [stopCommand, stopTry, hq, ht, hc]
      | none =>
        cases hs : env.stopThrows with
        | some m => simp [stopCommand, stopTry, hq, ht, hc, hs]
        | none =>
          cases hth : (stopTeardown bot env).threw <;>
            simp [stopCommand, stopTry, hq, ht, hc, hs, hth]

/-- When `queue.tracks.clear()` throws, the `catch` block logs and the function
goes on to the final reply with the bot state untouched. -/
theorem stopCommand_clear_throws
    (bot : AudioBot) (i : Interaction) (env : Env) (q : QueueView) (t : Track) (m : String)
    (hq : env.useQueue i.guildId = some q) (ht : q.currentTrack = some t)
    (hc : env.clearThrows = some m) :
    stopCommand bot i env = ⟨bot, [.tracksClear i.guildId, stoppedReply], none⟩ := by
  simp [stopCommand, stopTry, hq, ht, hc]

/-- C6 fails on the code, on the state reached by one play command in a guild
with a current track: when `queue.node.stop()` throws, `stopCommand` has
cleared the queue and called stop, but `isPlaying` is still true afterwards
and the reply is still "⏹ | I have stopped the music"; when
`queue.tracks.clear()` throws, the queue's stop is not even called. -/
theorem stopCommand_throwing_call_keeps_isPlaying :
    stopThrowsEnv.idle stopInA.guildId = false ∧
      stopCommand (run AudioBot.init [.play playInA quietEnv]) stopInA stopThrowsEnv
        = ⟨run AudioBot.init [.play playInA quietEnv],
            [.tracksClear "guild-a", .nodeStop "guild-a", stoppedReply], none⟩ ∧
      (stopCommand (run AudioBot.init [.play playInA quietEnv]) stopInA
        stopThrowsEnv).bot.isPlaying = true ∧
      stopCommand (run AudioBot.init [.play playInA quietEnv]) stopInA clearThrowsEnv
        = ⟨run AudioBot.init [.play playInA quietEnv],
            [.tracksClear "guild-a", stoppedReply], none⟩ :=
  ⟨rfl, rfl, rfl, rfl⟩

/-- C6 (amended): `stopCommand` replies with one of its two errors, makes no
call on the player or queue and leaves the bot state unchanged exactly when the
guild has no queue or the queue has no current track.  In every other case in
which the queue and connection calls return, it clears the track queue, stops
playback, destroys the connection if a handle is held, ends with
`currentConnection` null and `isPlaying` false, and replies
"⏹ | I have stopped the music". -/
theorem stopCommand_spec (bot : AudioBot) (i : Interaction) (env : Env) :
    ((((stopCommand bot i env).effects = [notInVoiceReply i] ∨
          (stopCommand bot i env).effects = [noTrackReply i]) ∧
        (∀ e ∈ (stopCommand bot i env).effects, e.isProviderCall = false) ∧
        (stopCommand bot i env).bot = bot) ↔ env.idle i.guildId = true) ∧
      (env.idle i.guildId = false → env.callsReturn →
        stopCommand bot i env
          = ⟨{ bot with currentConnection := none, isPlaying := false },
              [.tracksClear i.guildId, .nodeStop i.guildId] ++ destroyCalls bot ++
                [stoppedReply], none⟩) := by
  constructor
  · constructor
    · rintro ⟨_, hno, _⟩
      cases hidle : env.idle i.guildId with
      | true => rfl
      | false =>
        obtain ⟨rest, hrest⟩ := stopCommand_busy_head bot i env hidle
        have := hno (.tracksClear i.guildId) (by rw [hrest]; exact List.mem_cons_self _ _)
        simp [Effect.isProviderCall] at this
    · intro hidle
      rcases stopCommand_idle bot i env hidle with h | h <;> rw [h]
      · exact ⟨Or.inl rfl, by simp [notInVoiceReply, Effect.isProviderCall], rfl⟩
      · exact ⟨Or.inr rfl, by simp [noTrackReply, Effect.isProviderCall], rfl⟩
  · intro hidle ⟨hc, hs, _, hd⟩
    unfold Env.idle at hidle
    cases hq : env.useQueue i.guildId with
    | none => simp [hq] at hidle
    | some q =>
      rw [hq] at hidle
      cases ht : q.currentTrack with
      | none => simp [ht] at hidle
      | some t =>
        cases hcc : bot.currentConnection <;>
          simp [stopCommand, stopTry, stopTeardown, Result.andThen, destroyConnection,
            destroyCalls, hq, ht, hc, hs, hd, hcc]

/-- The amended C6 at concrete inputs: a stop on an idle guild, a stop on the state reached
by one play command, and a stop on a state that holds a connection handle. -/
theorem stopCommand_spec_example :
    stopCommand AudioBot.init stopInA quietEnv
        = ⟨AudioBot.init, [notInVoiceReply stopInA], none⟩ ∧
      stopCommand (run AudioBot.init [.play playInA quietEnv]) stopInA lastTrackEnv
        = ⟨{ run AudioBot.init [.play playInA quietEnv] with isPlaying := false },
            [.tracksClear "guild-a", .nodeStop "guild-a", stoppedReply], none⟩ ∧
      stopCommand connectedBot stopInA lastTrackEnv
        = ⟨{ connectedBot with currentConnection := none, isPlaying := false },
            [.tracksClear "guild-a", .nodeStop "guild-a", .destroy ⟨"voice-a"⟩,
              stoppedReply], none⟩ :=
  ⟨rfl,
    (stopCommand_spec (run AudioBot.init [.play playInA quietEnv]) stopInA lastTrackEnv).2
      rfl ⟨rfl, rfl, rfl, rfl⟩,
    (stopCommand_spec connectedBot stopInA lastTrackEnv).2 rfl ⟨rfl, rfl, rfl, rfl⟩⟩

/-- C7: when a stop command was run on a guild with a current track and the
guild is left with no current track (or no queue), a second stop command in
the same guild replies with the "not in a voice channel" or "no track
currently playing" error, throws nothing, makes no call on the player or
queue, and leaves the bot state as the first call left it. -/
theorem stopCommand_twice
    (bot : AudioBot) (i1 i2 : Interaction) (env1 env2 : Env)
    (hg : i2.guildId = i1.guildId)
    (hbusy : env1.idle i1.guildId = false) (hidle : env2.idle i1.guildId = true) :
    (stopCommand (stopCommand bot i1 env1).bot i2 env2).bot = (stopCommand bot i1 env1).bot ∧
      (stopCommand (stopCommand bot i1 env1).bot i2 env2).threw = none ∧
      ((stopCommand (stopCommand bot i1 env1).bot i2 env2).effects = [notInVoiceReply i2] ∨
        (stopCommand (stopCommand bot i1 env1).bot i2 env2).effects = [noTrackReply i2]) ∧
      (∀ e ∈ (stopCommand (stopCommand bot i1 env1).bot i2 env2).effects,
        e.isProviderCall = false) ∧
      ∃ rest, (stopCommand bot i1 env1).effects = .tracksClear i1.guildId :: rest := by
  rw [← hg] at hidle
  refine ⟨?_, ?_, ?_, ?_, stopCommand_busy_head bot i1 env1 hbusy⟩
  all_goals
    rcases stopCommand_idle (stopCommand bot i1 env1).bot i2 env2 hidle with h | h <;>
      rw [h] <;> simp [notInVoiceReply, noTrackReply, Effect.isProviderCall]

/-- C7 at a concrete input: two stop commands in guild A after one play
command, the queue being empty at the second. -/
theorem stopCommand_twice_example :
    stopCommand
        (stopCommand (run AudioBot.init [.play playInA quietEnv]) stopInA lastTrackEnv).bot
        stopInA quietEnv
      = ⟨(stopCommand (run AudioBot.init [.play playInA quietEnv]) stopInA lastTrackEnv).bot,
          [notInVoiceReply stopInA], none⟩ ∧
      (stopCommand
        (stopCommand (run AudioBot.init [.play playInA quietEnv]) stopInA lastTrackEnv).bot
        stopInA quietEnv).bot
      = (stopCommand (run AudioBot.init [.play playInA quietEnv]) stopInA lastTrackEnv).bot :=
  ⟨rfl, (stopCommand_twice (run AudioBot.init [.play playInA quietEnv]) stopInA stopInA
    lastTrackEnv quietEnv rfl rfl rfl).1⟩

/-! ### The dispatcher -/

/-- The failing input of C4: a command interaction named "constructor".  The
lookup finds the function inherited from `Object.prototype`, the dispatcher
calls it, and no reply is sent. -/
theorem dispatcher_constructor_sends_no_reply :
    commandHandlers "constructor" = .inheritedFunction none ∧
      onInteractionCreate AudioBot.init
          (Interaction.fresh "constructor" "guild-a" (some channelA) none) quietEnv
        = ⟨AudioBot.init, [], none⟩ := by
  constructor <;> decide

/-- A command named after a non-function property of `Object.prototype` gets
the reply of the dispatcher's `catch` block, not "Unknown command.". -/
theorem dispatcher_proto_replies_error :
    onInteractionCreate AudioBot.init
        (Interaction.fresh "__proto__" "guild-a" (some channelA) none) quietEnv
      = ⟨AudioBot.init, [.reply "There was an error executing that command." false], none⟩ := by
  decide

/-- For a command name that is neither an own key of the handler table nor a
property of `Object.prototype`, the dispatcher replies "Unknown command." and
does nothing else. -/
theorem dispatcher_unknown_command (bot : AudioBot) (i : Interaction) (env : Env)
    (hc : i.isCommand = true)
    (hown : i.commandName ≠ "play" ∧ i.commandName ≠ "skip" ∧ i.commandName ≠ "stop")
    (hq : i.commandName ∉ objectPrototypeQuiet) (hs : i.commandName ∉ objectPrototypeStrict)
    (hp : i.commandName ≠ "__proto__") :
    onInteractionCreate bot i env = ⟨bot, [unknownCommandReply], none⟩ := by
  obtain ⟨h1, h2, h3⟩ := hown
  simp [onInteractionCreate, commandHandlers, hc, h1, h2, h3, hq, hs, hp]

/-- The three registered names reach their handlers. -/
theorem dispatcher_known_commands (bot : AudioBot) (i : Interaction) (env : Env)
    (hc : i.isCommand = true) :
    (i.commandName = "play" → onInteractionCreate bot i env = playCommand bot i env) ∧
      (i.commandName = "skip" → onInteractionCreate bot i env = skipCommand bot i env) ∧
      (i.commandName = "stop" → onInteractionCreate bot i env = stopCommand bot i env) := by
  refine ⟨?_, ?_, ?_⟩ <;> intro hn
  · have ht : (playCommand bot i env).threw = none := playCommand_threw bot i env
    simp [onInteractionCreate, commandHandlers, callSlot, hc, hn, ht]
  · have ht : (skipCommand bot i env).threw = none := by
      unfold skipCommand
      simp only
      split <;> rfl
    simp [onInteractionCreate, commandHandlers, callSlot, hc, hn, ht]
  · have ht : (stopCommand bot i env).threw = none := by
      unfold stopCommand
      simp only
      split <;> rfl
    simp [onInteractionCreate, commandHandlers, callSlot, hc, hn, ht]

/-! ### syncCommands -/

/-- C8: when no registry call fails, `syncCommands` on a guild with more than
three registered commands fetches, clears with `set([])` and creates play,
skip, stop in that order, leaving exactly these three registered; on a guild
with three or fewer it fetches and creates the three with no clearing call, so
that they are registered on top of every earlier command of another name. -/
theorem syncCommands_spec (existing : Registry) (renv : RegistryEnv)
    (h : renv.allSucceed) :
    (3 < existing.length →
        syncCommands (some existing) renv
          = some ⟨[.fetch, .set [], .create playSpec, .create skipSpec, .create stopSpec],
              [playSpec, skipSpec, stopSpec]⟩) ∧
      (existing.length ≤ 3 →
        syncCommands (some existing) renv
          = some ⟨[.fetch, .create playSpec, .create skipSpec, .create stopSpec],
              Registry.create (Registry.create (Registry.create existing playSpec) skipSpec)
                stopSpec⟩ ∧
        (∀ c ∈ existing, c.name ≠ "play" → c.name ≠ "skip" → c.name ≠ "stop" →
          c ∈ Registry.create (Registry.create (Registry.create existing playSpec) skipSpec)
                stopSpec) ∧
        (∀ c ∈ commands,
          c ∈ Registry.create (Registry.create (Registry.create existing playSpec) skipSpec)
                stopSpec)) := by
  obtain ⟨hf, hs, hc⟩ := h
  constructor
  · intro hlen
    simp [syncCommands, createLoop, commands, hf, hs, hc, hlen, Registry.set,
      Registry.create, playSpec, skipSpec, stopSpec]
  · intro hlen
    have hnot : ¬ 3 < existing.length := by omega
    refine ⟨?_, ?_, ?_⟩
    · simp [syncCommands, createLoop, commands, hf, hc, hnot]
    · intro c hmem h1 h2 h3
      simp [Registry.create, playSpec, skipSpec, stopSpec, hmem, h1, h2, h3]
    · intro c hmem
      simp only [commands, List.mem_cons, List.mem_singleton, List.not_mem_nil,
        or_false] at hmem
      rcases hmem with rfl | rfl | rfl <;>
        simp [Registry.create, playSpec, skipSpec, stopSpec]

/-- C8 at concrete inputs: five stale commands are cleared first, and one
stale command is kept next to the three new ones. -/
theorem syncCommands_spec_example :
    syncCommands
        (some [⟨"a", "", []⟩, ⟨"b", "", []⟩, ⟨"c", "", []⟩, ⟨"d", "", []⟩, ⟨"e", "", []⟩])
        ⟨none, none, fun _ => none⟩
      = some ⟨[.fetch, .set [], .create playSpec, .create skipSpec, .create stopSpec],
          [playSpec, skipSpec, stopSpec]⟩ ∧
      syncCommands (some [⟨"a", "", []⟩]) ⟨none, none, fun _ => none⟩
      = some ⟨[.fetch, .create playSpec, .create skipSpec, .create stopSpec],
          [⟨"a", "", []⟩, playSpec, skipSpec, stopSpec]⟩ :=
  ⟨(syncCommands_spec _ ⟨none, none, fun _ => none⟩ ⟨rfl, rfl, fun _ => rfl⟩).1 (by decide),
    ((syncCommands_spec [⟨"a", "", []⟩] ⟨none, none, fun _ => none⟩
      ⟨rfl, rfl, fun _ => rfl⟩).2 (by decide)).1⟩

/-! ### Commands of different guilds -/

/-- The track-end callback does not touch `isRecording`. -/
theorem endCallback_isRecording (b : AudioBot) (env : Env) :
    (endCallback b env).bot.isRecording = b.isRecording := by
  unfold endCallback destroyConnection
  cases b.currentConnection <;> cases env.destroyThrows <;> rfl

/-- Running the registered callbacks does not touch `isRecording`. -/
theorem runListeners_isRecording (n : Nat) (b : AudioBot) (env : Env) :
    (runListeners n b env).bot.isRecording = b.isRecording := by
  induction n generalizing b with
  | zero => rfl
  | succ n ih =>
    have hcb := endCallback_isRecording b env
    simp only [runListeners, Result.andThen]
    split
    · exact hcb
    · rw [ih]; exact hcb

/-- No event assigns `isRecording`. -/
theorem step_isRecording (b : AudioBot) (e : Event) :
    (step b e).bot.isRecording = b.isRecording := by
  cases e with
  | play i env =>
    exact playCommand_frame (fun x => x.isRecording = b.isRecording) b i env rfl
      (fun _ h => h) (fun _ _ h => h) (fun _ h => h) (fun _ h => h)
  | skip i env =>
    simp only [step, skipCommand, skipTry]
    repeat' split
    all_goals simp_all
  | stop i env =>
    simp only [step, stopCommand, stopTry, stopTeardown, Result.andThen,
      destroyConnection]
    repeat' split
    all_goals simp_all
  | trackEnd env => exact runListeners_isRecording _ b env

/-- The flag `isRecording` is false after every run from the constructor state. -/
theorem run_isRecording (es : List Event) (b : AudioBot) :
    (run b es).isRecording = b.isRecording := by
  induction es generalizing b with
  | nil => rfl
  | cons e es ih => rw [run, ih, step_isRecording]

/-- With nothing bound, `playCommand` binds the issuing member's voice
channel (or stays unbound when the member is in none). -/
theorem playCommand_binds (b : AudioBot) (i : Interaction) (env : Env)
    (hv : b.voiceChannel = none) :
    (playCommand b i env).bot.voiceChannel = i.memberVoiceChannel := by
  cases hm : i.memberVoiceChannel with
  | none => rw [playCommand_unbound b i env hv hm]; exact hv
  | some vc =>
    rw [playCommand_binding b i env vc hv hm]
    exact playTry_frame (fun x => x.voiceChannel = some vc) _ vc _ env rfl
      (fun _ hx => hx) (fun _ hx => hx)

/-- The binding after an event is `bindAfter` of the binding before it. -/
theorem step_bindAfter (b : AudioBot) (e : Event) :
    (step b e).bot.voiceChannel = bindAfter b.voiceChannel e := by
  cases hv : b.voiceChannel with
  | some v =>
    rw [step_voiceChannel b e v hv]
    cases e <;> rfl
  | none =>
    cases e with
    | play i env => exact playCommand_binds b i env hv
    | skip i env =>
      simp only [step, skipCommand, skipTry, bindAfter]
      repeat' split
      all_goals simp_all
    | stop i env =>
      simp only [step, stopCommand, stopTry, stopTeardown, Result.andThen,
        destroyConnection, bindAfter]
      repeat' split
      all_goals simp_all
    | trackEnd env =>
      simp only [step, trackEnd, bindAfter]
      rw [runListeners_voiceChannel]; exact hv

/-- An event that does not bind leaves the binding as it is. -/
theorem bindAfter_of_not_binds (v : Option VoiceChannel) (e : Event)
    (h : e.binds = false) : bindAfter v e = v := by
  cases e with
  | play i env =>
    cases v with
    | some x => rfl
    | none =>
      simp only [Event.binds] at h
      cases hm : i.memberVoiceChannel with
      | none => simp [bindAfter, hm]
      | some c => simp [hm] at h
  | skip i env => rfl
  | stop i env => rfl
  | trackEnd env => rfl

/-- The binding after a run is decided by the events outside guild `a`, when
no command of guild `a` binds. -/
theorem run_voiceChannel_outside (a : String) (es : List Event) (b : AudioBot)
    (hnb : ∀ e ∈ es, e.guild = some a → e.binds = false) :
    (run b es).voiceChannel = (outside a es).foldl bindAfter b.voiceChannel := by
  induction es generalizing b with
  | nil => rfl
  | cons e es ih =>
    have ih2 := ih (step b e).bot (fun x hx => hnb x (List.mem_cons_of_mem _ hx))
    rw [run, ih2, step_bindAfter]
    by_cases hg : e.guild = some a
    · have hb := hnb e (List.mem_cons_self _ _) hg
      simp [outside, hg, bindAfter_of_not_binds _ e hb]
    · simp [outside, hg]

/-- Without a connection, the calls and the outcome of the `try` block of
`playCommand` depend on the bot only through `isRecording`. -/
theorem playTry_effects_congr (b1 b2 : AudioBot) (vc : VoiceChannel) (i : Interaction)
    (env : Env) (hc1 : b1.currentConnection = none) (hc2 : b2.currentConnection = none)
    (hr : b1.isRecording = b2.isRecording) :
    (playTry b1 vc i env).effects = (playTry b2 vc i env).effects ∧
      (playTry b1 vc i env).threw = (playTry b2 vc i env).threw := by
  unfold playTry
  simp only [hc1, hc2, Result.andThen, hr]
  cases i.songUrl with
  | none => exact ⟨rfl, rfl⟩
  | some q =>
    cases b2.isRecording with
    | true => exact ⟨rfl, rfl⟩
    | false =>
      simp only
      generalize env.play vc q = res
      cases res <;> exact ⟨rfl, rfl⟩

/-- Without a connection, the calls of `playCommand` depend on the bot only
through the bound voice channel and `isRecording`. -/
theorem playCommand_effects_congr (b1 b2 : AudioBot) (i : Interaction) (env : Env)
    (hv : b1.voiceChannel = b2.voiceChannel)
    (hc1 : b1.currentConnection = none) (hc2 : b2.currentConnection = none)
    (hr : b1.isRecording = b2.isRecording) :
    (playCommand b1 i env).effects = (playCommand b2 i env).effects := by
  cases hb : b2.voiceChannel with
  | some vc =>
    rw [playCommand_bound b1 i env vc (hv.trans hb), playCommand_bound b2 i env vc hb]
    simp only
    rw [(playTry_effects_congr { b1 with isPlaying := true } { b2 with isPlaying := true }
      vc (acknowledge i).1 env hc1 hc2 hr).1]
  | none =>
    cases hm : i.memberVoiceChannel with
    | none =>
      rw [playCommand_unbound b1 i env (hv.trans hb) hm, playCommand_unbound b2 i env hb hm]
    | some vc =>
      rw [playCommand_binding b1 i env vc (hv.trans hb) hm,
        playCommand_binding b2 i env vc hb hm]
      simp only
      rw [(playTry_effects_congr { b1 with isPlaying := true, voiceChannel := some vc }
        { b2 with isPlaying := true, voiceChannel := some vc }
        vc (acknowledge i).1 env hc1 hc2 hr).1]

/-- C9 fails on the code: the histories `[]` and "one play command in guild A"
differ only in guild A, yet the play command that follows in guild B asks the
player for `channelB` after the first and for `channelA` after the second. -/
theorem play_depends_on_other_guild :
    outside "guild-a" [] = outside "guild-a" [Event.play playInA quietEnv] ∧
      playInB.guildId ≠ "guild-a" ∧
      (playCommand (run AudioBot.init []) playInB quietEnv).effects
        = [.deferReply, .playerPlay channelB "song", .onEnd,
            .followUp "**song** enqueued!"] ∧
      (playCommand (run AudioBot.init [.play playInA quietEnv]) playInB quietEnv).effects
        = [.deferReply, .playerPlay channelA "song", .onEnd,
            .followUp "**song** enqueued!"] := by
  refine ⟨rfl, by decide, rfl, rfl⟩

/-- C9 (amended): take two histories that differ only in the commands issued
in guild `a`, none of these being a play command from a member who is in a
voice channel.  Then a play command that follows (in another guild, or in any
guild) issues the same calls in the same order in both runs: the same
`player.play` with the same channel and query, and the same reply. -/
theorem play_independent_of_unbinding_guild
    (a : String) (h1 h2 : List Event) (i : Interaction) (env : Env)
    (hdiff : outside a h1 = outside a h2)
    (hnb1 : ∀ e ∈ h1, e.guild = some a → e.binds = false)
    (hnb2 : ∀ e ∈ h2, e.guild = some a → e.binds = false) :
    (playCommand (run AudioBot.init h1) i env).effects
      = (playCommand (run AudioBot.init h2) i env).effects := by
  apply playCommand_effects_congr
  · rw [run_voiceChannel_outside a h1 _ hnb1, run_voiceChannel_outside a h2 _ hnb2, hdiff]
  · exact (run_noConnection h1 AudioBot.init rfl).1
  · exact (run_noConnection h2 AudioBot.init rfl).1
  · rw [run_isRecording, run_isRecording]

/-- The amended C9 at concrete histories: a play in guild B alone, and the same
play preceded by an off-voice play and followed by a skip and a stop in guild
A; the play that follows in guild B issues the same calls. -/
theorem play_independent_of_unbinding_guild_example :
    (playCommand
        (run AudioBot.init [.play playInB quietEnv]) playInB quietEnv).effects
      = (playCommand
          (run AudioBot.init
            [.play playOffVoice quietEnv, .play playInB quietEnv,
              .skip skipInA moreTracksEnv, .stop stopInA lastTrackEnv])
          playInB quietEnv).effects :=
  play_independent_of_unbinding_guild "guild-a" [.play playInB quietEnv]
    [.play playOffVoice quietEnv, .play playInB quietEnv,
      .skip skipInA moreTracksEnv, .stop stopInA lastTrackEnv]
    playInB quietEnv rfl (by decide) (by decide)

end AudioBotModel
